import Mathlib

set_option allowUnsafeReducibility true
attribute [local semireducible] Rat.add Rat.mul Rat.sub Rat.inv Rat.div

/-!
Shallow embedding of the entity-simulation core of the endless-runner
(`src/components/World/LevelManager.tsx` and `src/components/World/Player.tsx`).
Positions and times are rationals (the source uses JS numbers on small exact
literals); the per-frame random draws are passed in explicitly; the DOM /
store callbacks are modelled as an emitted event list.  Cosmetic fields
(color, letter glyph, particle bursts, audio) are irrelevant to the
simulation logic and are omitted; the `id` field models the uuid as a
natural number drawn from a counter threaded through the frame.
-/

namespace PengoRun

/-- Game status enum (`GameStatus` in `types.ts`, used by both components). -/
inductive GameStatus
  | menu
  | playing
  | shop
  | gameOver
  | victory
deriving DecidableEq, Repr

/-- Entity kind (`ObjectType` in `types.ts`). -/
inductive ObjectType
  | obstacle
  | alien
  | missile
  | gem
  | letter
  | shopPortal
deriving DecidableEq, Repr

/-- A 3-component position: lane offset x, height y, forward distance z. -/
structure Vec3 where
  x : ℚ
  y : ℚ
  z : ℚ
deriving DecidableEq, Repr

/-- One world entity (`GameObject` in `types.ts` as used by `LevelManager.tsx`). -/
structure GameObject where
  id : ℕ
  type : ObjectType
  position : Vec3
  active : Bool
  hasFired : Bool := false
  points : Option ℕ := none
  targetIndex : Option ℕ := none
deriving DecidableEq, Repr

/-- Modelled from the spec: the static tunable constants `LANE_WIDTH`,
`SPAWN_DISTANCE` and `REMOVE_DISTANCE` are declared in `types.ts`, which is
not among the provided sources; the spec (section 6) says all configuration
is static tunable constants and fixes `SPAWN_DISTANCE = 60` only inside one
scenario, so the three values are carried as parameters. -/
structure Consts where
  LANE_WIDTH : ℚ
  SPAWN_DISTANCE : ℚ
  REMOVE_DISTANCE : ℚ
deriving Repr

/-- Constant `MISSILE_SPEED` (`LevelManager.tsx` line 45). -/
def MISSILE_SPEED : ℚ := 25

/-- Constant `BASE_LETTER_INTERVAL` (`LevelManager.tsx` line 39). -/
def BASE_LETTER_INTERVAL : ℚ := 150

/-- Function `getLetterInterval` (`LevelManager.tsx` lines 41-43):
`BASE_LETTER_INTERVAL * 1.5 ^ max 0 (level - 1)`; with `level : ℕ` the
truncated subtraction is exactly `Math.max(0, level - 1)`. -/
def getLetterInterval (level : ℕ) : ℚ :=
  BASE_LETTER_INTERVAL * (3 / 2 : ℚ) ^ (level - 1)

/-- Function `getRandomLane` (`LevelManager.tsx` lines 129-132) applied to one
uniform draw `r`: `Math.floor(r * (max * 2 + 1)) - max` with
`max = Math.floor(laneCount / 2)`. -/
def getRandomLane (r : ℚ) (laneCount : ℕ) : ℤ :=
  let m : ℤ := (laneCount / 2 : ℕ)
  ⌊r * ((m : ℚ) * 2 + 1)⌋ - m

/-- The uniform draws a single frame of the spawn logic can consume, one field
per `Math.random()` call site (`LevelManager.tsx` lines 302-386). -/
structure Draws where
  gate : ℚ
  obstacleRoll : ℚ
  alienRoll : ℚ
  gemAboveRoll : ℚ
  laneRoll : ℚ
  letterRoll : ℚ
deriving Repr

/-- Callbacks and DOM events the frame loop can emit, each tagged with the id
of the entity that produced it: `player-hit` dispatch (line 258), store
callbacks `collectGem` (line 270), `collectLetter` (line 274), `openShop`
(line 235) and `setDistance` (line 178, from the status effect). -/
inductive GameEvent
  | playerHit (srcId : ℕ)
  | collectGem (srcId : ℕ) (points : ℕ)
  | collectLetter (srcId : ℕ) (idx : ℕ)
  | openShop (srcId : ℕ)
  | setDistance (value : ℤ)
deriving DecidableEq, Repr

/-- Source entity id of an event, `none` for the store distance callback. -/
def eventSrc : GameEvent → Option ℕ
  | .playerHit i => some i
  | .collectGem i _ => some i
  | .collectLetter i _ => some i
  | .openShop i => some i
  | .setDistance _ => none

/-- Forward move amount per frame: `dist`, plus the extra missile velocity
(`LevelManager.tsx` lines 207-208). -/
def moveAmountFor (dist safeDelta : ℚ) (t : ObjectType) : ℚ :=
  dist + (if t = ObjectType.missile then MISSILE_SPEED * safeDelta else 0)

/-- The entity after the per-frame move `obj.position[2] += moveAmount`
(`LevelManager.tsx` line 211). -/
def movedObj (dist safeDelta : ℚ) (obj : GameObject) : GameObject :=
  { obj with position :=
      { obj.position with z := obj.position.z + moveAmountFor dist safeDelta obj.type } }

/-- Alien fire condition (`LevelManager.tsx` lines 214-215): type `ALIEN`,
active, not yet fired, and post-move z beyond `-90`. -/
def firesNow (moved : GameObject) : Bool :=
  decide (moved.type = ObjectType.alien) && moved.active && !moved.hasFired &&
    decide (moved.position.z > -90)

/-- Mark `hasFired = true` when the fire condition holds (line 216). -/
def afterFire (moved : GameObject) : GameObject :=
  if firesNow moved then { moved with hasFired := true } else moved

/-- The missile pushed on fire (`LevelManager.tsx` lines 217-223): position
`[alien.x, 1.0, alien.z + 2]`. -/
def missileFrom (moved : GameObject) (nid : ℕ) : GameObject :=
  { id := nid, type := ObjectType.missile,
    position := ⟨moved.position.x, 1, moved.position.z + 2⟩, active := true }

/-- Forward z-zone test (`LevelManager.tsx` lines 230-231):
`prevZ < playerZ + 2 && z > playerZ - 2`. -/
def inZZone (playerPos : Vec3) (prevZ z : ℚ) : Bool :=
  decide (prevZ < playerPos.z + 2) && decide (z > playerPos.z - 2)

/-- Damage-source classification (`LevelManager.tsx` line 243). -/
def isDamageSource (t : ObjectType) : Bool :=
  decide (t = ObjectType.obstacle) || decide (t = ObjectType.alien) ||
    decide (t = ObjectType.missile)

/-- Vertical band overlap test for damage sources (lines 246-255): player band
`[y, y + 1.5]`; entity band `[y - 0.5, y + 0.5]`, overridden to `[0, 1.5]`
for obstacles. -/
def isHitTest (playerPos : Vec3) (obj : GameObject) : Bool :=
  let objBottom : ℚ :=
    if obj.type = ObjectType.obstacle then 0 else obj.position.y - 1 / 2
  let objTop : ℚ :=
    if obj.type = ObjectType.obstacle then 3 / 2 else obj.position.y + 1 / 2
  decide (playerPos.y < objTop) && decide (playerPos.y + 3 / 2 > objBottom)

/-- JS `obj.points || 50` (line 270): `undefined` and `0` both fall back. -/
def pointsOrDefault : Option ℕ → ℕ
  | none => 50
  | some p => if p = 0 then 50 else p

/-- Collect-branch callbacks (`LevelManager.tsx` lines 269-276): `collectGem`
for gems, `collectLetter` when the letter has a target index. -/
def collectEvents (obj : GameObject) : List GameEvent :=
  (if obj.type = ObjectType.gem then
      [GameEvent.collectGem obj.id (pointsOrDefault obj.points)]
    else []) ++
  (match obj.targetIndex with
   | some i =>
       if obj.type = ObjectType.letter then [GameEvent.collectLetter obj.id i] else []
   | none => [])

/-- Collision resolution for one already-moved entity (`LevelManager.tsx`
lines 229-285).  Returns the entity after possible deactivation, the `keep`
flag before removal-culling, and the emitted events. -/
def resolveCollision (playerPos : Vec3) (prevZ : ℚ) (obj : GameObject) :
    GameObject × Bool × List GameEvent :=
  if obj.active = true then
    if obj.type = ObjectType.shopPortal then
      if |obj.position.z - playerPos.z| < 2 then
        ({ obj with active := false }, false, [GameEvent.openShop obj.id])
      else (obj, true, [])
    else if inZZone playerPos prevZ obj.position.z = true then
      if |obj.position.x - playerPos.x| < 4 / 5 then
        if isDamageSource obj.type = true then
          if isHitTest playerPos obj = true then
            ({ obj with active := false }, true, [GameEvent.playerHit obj.id])
          else (obj, true, [])
        else
          if |obj.position.y - playerPos.y| < 5 / 2 then
            ({ obj with active := false }, true, collectEvents obj)
          else (obj, true, [])
      else (obj, true, [])
    else (obj, true, [])
  else (obj, true, [])

/-- Result of processing one entity of the frame loop. -/
structure StepResult where
  kept : List GameObject
  spawned : List GameObject
  events : List GameEvent
  nextId : ℕ
deriving Repr

/-- Body of the frame loop for one entity (`LevelManager.tsx` lines 206-293):
move, alien fire, collision, removal-culling past `REMOVE_DISTANCE`. -/
def stepObject (c : Consts) (dist safeDelta : ℚ) (playerPos : Vec3)
    (obj : GameObject) (nid : ℕ) : StepResult :=
  let moved := movedObj dist safeDelta obj
  let col := resolveCollision playerPos obj.position.z (afterFire moved)
  { kept :=
      if col.2.1 && !(decide (moved.position.z > c.REMOVE_DISTANCE)) then [col.1] else [],
    spawned := if firesNow moved then [missileFrom moved nid] else [],
    events := col.2.2,
    nextId := if firesNow moved then nid + 1 else nid }

/-- The whole frame loop over the entity list, in list order, accumulating
kept entities, newly spawned missiles, and events (lines 202-293). -/
def runObjects (c : Consts) (dist safeDelta : ℚ) (playerPos : Vec3) :
    List GameObject → ℕ → StepResult
  | [], nid => ⟨[], [], [], nid⟩
  | o :: rest, nid =>
    let r := stepObject c dist safeDelta playerPos o nid
    let rs := runObjects c dist safeDelta playerPos rest r.nextId
    ⟨r.kept ++ rs.kept, r.spawned ++ rs.spawned, r.events ++ rs.events, rs.nextId⟩

/-- Furthest-ahead z among static (non-missile) entities, defaulting to `-20`
(`LevelManager.tsx` lines 298-300); more negative is further ahead. -/
def furthestZ (objs : List GameObject) : ℚ :=
  match objs.filter (fun o => !decide (o.type = ObjectType.missile)) with
  | [] => -20
  | o :: rest => rest.foldl (fun m x => min m x.position.z) o.position.z

/-- Spawn policy of one frame (`LevelManager.tsx` lines 302-386), appending
the spawned entities to the frame entity list.  Returns the entity list, the
updated `nextLetterDistance` and the updated id counter. -/
def spawnStep (c : Consts) (speed : ℚ) (laneCount level : ℕ)
    (collectedLetters : List ℕ) (rand : Draws)
    (distanceTraveled nextLetterDistance : ℚ)
    (kept : List GameObject) (nid : ℕ) : List GameObject × ℚ × ℕ :=
  if furthestZ kept > -c.SPAWN_DISTANCE then
    let minGap : ℚ := 12 + speed * (2 / 5)
    let spawnZ : ℚ := min (furthestZ kept - minGap) (-c.SPAWN_DISTANCE)
    if distanceTraveled ≥ nextLetterDistance then
      let lane := getRandomLane rand.laneRoll laneCount
      let availableIndices := (List.range 6).filter (fun i => !collectedLetters.contains i)
      if 0 < availableIndices.length then
        let chosenIndex :=
          availableIndices.getD (⌊rand.letterRoll * (availableIndices.length : ℚ)⌋).toNat 0
        (kept ++ [{ id := nid, type := ObjectType.letter,
                    position := ⟨(lane : ℚ) * c.LANE_WIDTH, 1, spawnZ⟩, active := true,
                    targetIndex := some chosenIndex }],
         nextLetterDistance + getLetterInterval level, nid + 1)
      else
        (kept ++ [{ id := nid, type := ObjectType.gem,
                    position := ⟨(lane : ℚ) * c.LANE_WIDTH, 6 / 5, spawnZ⟩, active := true,
                    points := some 50 }],
         nextLetterDistance, nid + 1)
    else if rand.gate > 1 / 10 then
      (if rand.obstacleRoll > 1 / 4 then
        if 2 ≤ level ∧ rand.alienRoll < 1 / 5 then
          let lane := getRandomLane rand.laneRoll laneCount
          (kept ++ [{ id := nid, type := ObjectType.alien,
                      position := ⟨(lane : ℚ) * c.LANE_WIDTH, 3 / 2, spawnZ⟩, active := true,
                      hasFired := false }],
           nextLetterDistance, nid + 1)
        else
          let lane := getRandomLane rand.laneRoll laneCount
          let base := kept ++
            [{ id := nid, type := ObjectType.obstacle,
               position := ⟨(lane : ℚ) * c.LANE_WIDTH, 0, spawnZ⟩, active := true }]
          if rand.gemAboveRoll < 3 / 10 then
            (base ++ [{ id := nid + 1, type := ObjectType.gem,
                        position := ⟨(lane : ℚ) * c.LANE_WIDTH, 5 / 2, spawnZ⟩, active := true,
                        points := some 100 }],
             nextLetterDistance, nid + 2)
          else (base, nextLetterDistance, nid + 1)
      else
        let lane := getRandomLane rand.laneRoll laneCount
        (kept ++ [{ id := nid, type := ObjectType.gem,
                    position := ⟨(lane : ℚ) * c.LANE_WIDTH, 6 / 5, spawnZ⟩, active := true,
                    points := some 50 }],
         nextLetterDistance, nid + 1))
    else (kept, nextLetterDistance, nid)
  else (kept, nextLetterDistance, nid)

/-- Mutable state of `LevelManager`: the entity array `objectsRef`, the refs
`distanceTraveled` and `nextLetterDistance`, and the uuid supply counter. -/
structure LMState where
  objects : List GameObject
  distanceTraveled : ℚ
  nextLetterDistance : ℚ
  nextId : ℕ
deriving DecidableEq, Repr

/-- Store values and per-frame inputs consumed by the `LevelManager` frame
callback; `playerRef = none` models the player object not yet attached
(`playerObjRef.current === null`, lines 199-200). -/
structure FrameInput where
  status : GameStatus
  speed : ℚ
  laneCount : ℕ
  collectedLetters : List ℕ
  level : ℕ
  delta : ℚ
  playerRef : Option Vec3
  rand : Draws
deriving Repr

/-- The per-frame `useFrame` callback of `LevelManager` (lines 191-392).
When `hasChanges` is false in the source, the kept array equals the old array
element-wise (entities are mutated in place and nothing was added or
dropped), so the committed entity list is always `kept ++ spawned ++ spawnStep
additions`. -/
def frame (c : Consts) (inp : FrameInput) (s : LMState) : LMState × List GameEvent :=
  if inp.status = GameStatus.playing then
    let safeDelta := min inp.delta (1 / 20)
    let dist := inp.speed * safeDelta
    let distanceTraveled := s.distanceTraveled + dist
    let playerPos := inp.playerRef.getD ⟨0, 0, 0⟩
    let r := runObjects c dist safeDelta playerPos s.objects s.nextId
    let sp := spawnStep c inp.speed inp.laneCount inp.level inp.collectedLetters
        inp.rand distanceTraveled s.nextLetterDistance (r.kept ++ r.spawned) r.nextId
    ({ objects := sp.1, distanceTraveled := distanceTraveled,
       nextLetterDistance := sp.2.1, nextId := sp.2.2 }, r.events)
  else (s, [])

/-- The portal entity pushed on a level-up transition (lines 169-174). -/
def newPortal (nid : ℕ) : GameObject :=
  { id := nid, type := ObjectType.shopPortal, position := ⟨0, 0, -100⟩, active := true }

/-- Inputs of the status/level effect: current and previous dependency values
(`prevStatus.current`, `prevLevel.current`). -/
structure EffectInput where
  status : GameStatus
  prevStatus : GameStatus
  level : ℕ
  prevLevel : ℕ
deriving Repr

/-- The `useEffect` of `LevelManager` (lines 156-182), run whenever `status`
or `level` changed: menu reset / restart / victory reset clear the store;
a level-up with `level > 1` prunes entities at `z ≤ -80` and injects one
portal; otherwise a terminal status reports the floored distance. -/
def effectStep (c : Consts) (inp : EffectInput) (s : LMState) : LMState × List GameEvent :=
  if inp.status = GameStatus.menu ∨
      (inp.status = GameStatus.playing ∧ inp.prevStatus = GameStatus.gameOver) ∨
      (inp.status = GameStatus.playing ∧ inp.prevStatus = GameStatus.victory) then
    ({ objects := [], distanceTraveled := 0,
       nextLetterDistance := getLetterInterval 1, nextId := s.nextId }, [])
  else if (¬ inp.level = inp.prevLevel ∧ inp.status = GameStatus.playing) ∧ 1 < inp.level then
    ({ objects := (s.objects.filter (fun o => decide (o.position.z > -80))) ++
         [newPortal s.nextId],
       distanceTraveled := s.distanceTraveled,
       nextLetterDistance := s.distanceTraveled - c.SPAWN_DISTANCE + getLetterInterval inp.level,
       nextId := s.nextId + 1 }, [])
  else if inp.status = GameStatus.gameOver ∨ inp.status = GameStatus.victory then
    (s, [GameEvent.setDistance ⌊s.distanceTraveled⌋])
  else (s, [])

/-- Logical player state of `Player.tsx`: the `lane` React state and the
jump refs (`isJumping`, `velocityY`, `jumpsPerformed`) plus the world-space
height `groupRef.current.position.y`. -/
structure PlayerState where
  lane : ℤ
  isJumping : Bool
  velocityY : ℚ
  jumpsPerformed : ℕ
  y : ℚ
deriving DecidableEq, Repr

/-- The `useEffect` of `Player.tsx` lines 47-56: on entering the playing
status the jump state and height are reset; the lane is not touched. -/
def resetOnPlaying (status : GameStatus) (p : PlayerState) : PlayerState :=
  if status = GameStatus.playing then
    { p with isJumping := false, jumpsPerformed := 0, velocityY := 0, y := 0 }
  else p

/-- `maxLane = Math.floor(laneCount / 2)` (`Player.tsx` line 85). -/
def maxLane (laneCount : ℕ) : ℤ := (laneCount / 2 : ℕ)

/-- Logical lane-change intents decoded from ArrowLeft / ArrowRight. -/
inductive LaneMove
  | left
  | right
deriving DecidableEq, Repr

/-- The keydown handler lane branches (`Player.tsx` lines 83-88): no-op
outside the playing status, otherwise `lane ± 1` clamped to
`[-maxLane, maxLane]`. -/
def applyLaneMove (status : GameStatus) (laneCount : ℕ) (l : ℤ) : LaneMove → ℤ
  | .left => if status = GameStatus.playing then max (l - 1) (-maxLane laneCount) else l
  | .right => if status = GameStatus.playing then min (l + 1) (maxLane laneCount) else l

/-- A finite sequence of lane inputs applied in order. -/
def runLaneMoves (status : GameStatus) (laneCount : ℕ) (l : ℤ) (ms : List LaneMove) : ℤ :=
  ms.foldl (applyLaneMove status laneCount) l

/-- Jump constant `JUMP_FORCE` (`Player.tsx` line 16). -/
def JUMP_FORCE : ℚ := 16

/-- The `triggerJump` handler (`Player.tsx` lines 66-80), cosmetic spin and
audio omitted. -/
def triggerJump (hasDoubleJump : Bool) (p : PlayerState) : PlayerState :=
  let maxJumps : ℕ := if hasDoubleJump then 2 else 1
  if p.isJumping = false then
    { p with isJumping := true, jumpsPerformed := 1, velocityY := JUMP_FORCE }
  else if p.jumpsPerformed < maxJumps then
    { p with jumpsPerformed := p.jumpsPerformed + 1, velocityY := JUMP_FORCE }
  else p

/-- The invincibility refs of `Player.tsx` (lines 43-44). -/
structure HitState where
  isInvincible : Bool
  lastDamageTime : ℤ
deriving DecidableEq, Repr

/-- The `player-hit` listener `checkHit` (`Player.tsx` lines 217-227): while
invincible or immortal nothing happens; otherwise `takeDamage` is called
(returned boolean) and the invincibility window starts at `now`. -/
def checkHit (now : ℤ) (isImmortalityActive : Bool) (h : HitState) : HitState × Bool :=
  if h.isInvincible = true ∨ isImmortalityActive = true then (h, false)
  else ({ isInvincible := true, lastDamageTime := now }, true)

/-- Count of live (active) shop portals in an entity list. -/
def portalCount (objs : List GameObject) : ℕ :=
  objs.countP (fun o => decide (o.type = ObjectType.shopPortal) && o.active)

/-- The frame-loop pass of `frame` over the stored entities (the value bound
to `r` inside `frame`); exposed so theorems can speak about the entities
spawned during the pass. -/
def frameRun (c : Consts) (inp : FrameInput) (s : LMState) : StepResult :=
  runObjects c (inp.speed * min inp.delta (1 / 20)) (min inp.delta (1 / 20))
    (inp.playerRef.getD ⟨0, 0, 0⟩) s.objects s.nextId

/-! Concrete fixtures for the scenario theorems. -/

/-- A concrete configuration: lane width 2, spawn distance 60, removal at z = 10. -/
def c0 : Consts := ⟨2, 60, 10⟩

/-- All uniform draws at 0; in particular the spawn gate draw is below 0.1. -/
def draws0 : Draws := ⟨0, 0, 0, 0, 0, 0⟩

/-- An obstacle in the centre lane just ahead of the origin. -/
def noRefObstacle : GameObject :=
  { id := 0, type := ObjectType.obstacle, position := ⟨0, 0, -1⟩, active := true }

/-- Store state holding only `noRefObstacle`. -/
def noRefState : LMState :=
  { objects := [noRefObstacle], distanceTraveled := 0, nextLetterDistance := 150, nextId := 1 }

/-- A playing frame whose player object is not yet attached. -/
def noRefInput : FrameInput :=
  { status := GameStatus.playing, speed := 10, laneCount := 5, collectedLetters := [],
    level := 1, delta := 1 / 20, playerRef := none, rand := draws0 }

/-- An active alien, not yet fired, hovering at height 3 out of the z-zone. -/
def firingAlien : GameObject :=
  { id := 0, type := ObjectType.alien, position := ⟨0, 3, -5 / 2⟩, active := true }

/-- Store state holding only `firingAlien`. -/
def firingState : LMState :=
  { objects := [firingAlien], distanceTraveled := 0, nextLetterDistance := 150, nextId := 1 }

/-- A playing frame with the player attached at the origin. -/
def firingInput : FrameInput :=
  { status := GameStatus.playing, speed := 4, laneCount := 5, collectedLetters := [],
    level := 1, delta := 1 / 20, playerRef := some ⟨0, 0, 0⟩, rand := draws0 }

/-- The missile `firingAlien` spawns during a `firingInput` frame. -/
def missile1 : GameObject :=
  { id := 1, type := ObjectType.missile, position := ⟨0, 1, -3 / 10⟩, active := true }

/-- An active alien at lane offset 4, spawn height 3/2, not yet fired. -/
def highAlien : GameObject :=
  { id := 3, type := ObjectType.alien, position := ⟨4, 3 / 2, -5 / 2⟩, active := true }

/-- An obstacle exactly at the spawn scenario distance z = -40. -/
def farObstacle : GameObject :=
  { id := 0, type := ObjectType.obstacle, position := ⟨0, 0, -40⟩, active := true }

/-- Store state whose furthest static entity sits at z = -40. -/
def gapState : LMState :=
  { objects := [farObstacle], distanceTraveled := 0, nextLetterDistance := 150, nextId := 1 }

/-- A playing frame with zero scroll speed and the gate draw at 0. -/
def gapInput : FrameInput :=
  { status := GameStatus.playing, speed := 0, laneCount := 5, collectedLetters := [],
    level := 1, delta := 1 / 20, playerRef := some ⟨0, 0, 0⟩, rand := draws0 }

/-- A live portal still on the road at z = -50. -/
def pendingPortal : GameObject :=
  { id := 0, type := ObjectType.shopPortal, position := ⟨0, 0, -50⟩, active := true }

/-- Store state holding the live `pendingPortal`. -/
def pendingState : LMState :=
  { objects := [pendingPortal], distanceTraveled := 500, nextLetterDistance := 600, nextId := 1 }

/-- A live portal one and a half units ahead of the origin. -/
def nearPortal : GameObject :=
  { id := 5, type := ObjectType.shopPortal, position := ⟨0, 0, -3 / 2⟩, active := true }

/-- Store state with distance traveled 25/2 (floor 12). -/
def overState : LMState :=
  { objects := [], distanceTraveled := 25 / 2, nextLetterDistance := 150, nextId := 0 }

/-- A mid-air player in lane 2. -/
def playerA : PlayerState :=
  { lane := 2, isJumping := true, velocityY := 5, jumpsPerformed := 1, y := 3 }

/-! Helper lemmas. -/

theorem afterFire_id (m : GameObject) : (afterFire m).id = m.id := by
  unfold afterFire; split <;> rfl

theorem afterFire_type (m : GameObject) : (afterFire m).type = m.type := by
  unfold afterFire; split <;> rfl

theorem afterFire_active (m : GameObject) : (afterFire m).active = m.active := by
  unfold afterFire; split <;> rfl

theorem afterFire_position (m : GameObject) : (afterFire m).position = m.position := by
  unfold afterFire; split <;> rfl

theorem collectEvents_src (o : GameObject) (e : GameEvent) (he : e ∈ collectEvents o) :
    eventSrc e = some o.id := by
  unfold collectEvents at he
  rcases hti : o.targetIndex with _ | i <;> rw [hti] at he <;>
    split_ifs at he <;> simp_all [eventSrc]

theorem resolveCollision_events_src (pp : Vec3) (prevZ : ℚ) (o : GameObject) (e : GameEvent)
    (he : e ∈ (resolveCollision pp prevZ o).2.2) : eventSrc e = some o.id := by
  unfold resolveCollision at he
  split_ifs at he <;>
    first
      | exact collectEvents_src o e he
      | simp_all [eventSrc]

theorem resolveCollision_fst (pp : Vec3) (prevZ : ℚ) (o : GameObject) :
    (resolveCollision pp prevZ o).1 = o ∨
      (resolveCollision pp prevZ o).1 = { o with active := false } := by
  unfold resolveCollision
  split_ifs <;> simp

theorem stepObject_events_src (c : Consts) (dist safeDelta : ℚ) (pp : Vec3)
    (obj : GameObject) (nid : ℕ) (e : GameEvent)
    (he : e ∈ (stepObject c dist safeDelta pp obj nid).events) :
    eventSrc e = some obj.id := by
  have h := resolveCollision_events_src pp obj.position.z
    (afterFire (movedObj dist safeDelta obj)) e he
  simpa [afterFire_id, movedObj] using h

theorem runObjects_events_src (c : Consts) (dist safeDelta : ℚ) (pp : Vec3) :
    ∀ (objs : List GameObject) (nid : ℕ) (e : GameEvent),
      e ∈ (runObjects c dist safeDelta pp objs nid).events →
      ∃ o ∈ objs, eventSrc e = some o.id
  | [], nid, e, he => by simp [runObjects] at he
  | o :: rest, nid, e, he => by
      rw [runObjects] at he
      rcases List.mem_append.mp he with h | h
      · exact ⟨o, List.mem_cons_self o rest, stepObject_events_src c dist safeDelta pp o nid e h⟩
      · obtain ⟨o', ho', hs⟩ := runObjects_events_src c dist safeDelta pp rest _ e h
        exact ⟨o', List.mem_cons_of_mem o ho', hs⟩

theorem frame_events_src (c : Consts) (inp : FrameInput) (s : LMState) (e : GameEvent)
    (he : e ∈ (frame c inp s).2) : ∃ o ∈ s.objects, eventSrc e = some o.id := by
  unfold frame at he
  split_ifs at he
  · exact runObjects_events_src c _ _ _ s.objects s.nextId e he
  · simp at he

theorem stepObject_spawned (c : Consts) (dist safeDelta : ℚ) (pp : Vec3)
    (obj : GameObject) (nid : ℕ) (o : GameObject)
    (ho : o ∈ (stepObject c dist safeDelta pp obj nid).spawned) :
    o.type = ObjectType.missile ∧ o.id = nid := by
  unfold stepObject at ho
  dsimp only at ho
  split at ho <;> simp_all [missileFrom]

theorem portalCount_append (l₁ l₂ : List GameObject) :
    portalCount (l₁ ++ l₂) = portalCount l₁ + portalCount l₂ := by
  simp [portalCount, List.countP_append]

theorem stepObject_portal (c : Consts) (dist safeDelta : ℚ) (pp : Vec3)
    (obj : GameObject) (nid : ℕ) :
    portalCount ((stepObject c dist safeDelta pp obj nid).kept ++
      (stepObject c dist safeDelta pp obj nid).spawned) ≤ portalCount [obj] := by
  have hfa : (afterFire (movedObj dist safeDelta obj)).type = obj.type := by
    rw [afterFire_type]; rfl
  have hfb : (afterFire (movedObj dist safeDelta obj)).active = obj.active := by
    rw [afterFire_active]; rfl
  rcases resolveCollision_fst pp obj.position.z (afterFire (movedObj dist safeDelta obj))
    with h | h <;>
  · unfold stepObject
    dsimp only
    rw [portalCount_append, h]
    split_ifs <;>
      simp_all [portalCount, List.countP_cons, List.countP_nil, missileFrom]

theorem runObjects_portal (c : Consts) (dist safeDelta : ℚ) (pp : Vec3) :
    ∀ (objs : List GameObject) (nid : ℕ),
      portalCount ((runObjects c dist safeDelta pp objs nid).kept ++
        (runObjects c dist safeDelta pp objs nid).spawned) ≤ portalCount objs
  | [], nid => by simp [runObjects, portalCount]
  | o :: rest, nid => by
      have h1 := stepObject_portal c dist safeDelta pp o nid
      have h2 := runObjects_portal c dist safeDelta pp rest
        (stepObject c dist safeDelta pp o nid).nextId
      have hc : portalCount (o :: rest) = portalCount [o] + portalCount rest := by
        simp [portalCount, List.countP_cons]; omega
      rw [runObjects]
      dsimp only
      rw [portalCount_append] at h1 h2 ⊢
      rw [portalCount_append, portalCount_append, hc]
      omega

theorem spawnStep_extra (c : Consts) (speed : ℚ) (laneCount level : ℕ)
    (cl : List ℕ) (rand : Draws) (dt nld : ℚ) (kept : List GameObject) (nid : ℕ) :
    ∃ extra, (spawnStep c speed laneCount level cl rand dt nld kept nid).1 = kept ++ extra ∧
      portalCount extra = 0 := by
  unfold spawnStep
  dsimp only
  split_ifs <;>
    first
      | (refine ⟨_, List.append_assoc _ _ _, ?_⟩
         simp [portalCount, List.countP_cons, List.countP_nil])
      | (refine ⟨_, rfl, ?_⟩
         simp [portalCount, List.countP_cons, List.countP_nil])
      | exact ⟨[], (List.append_nil kept).symm, by simp [portalCount]⟩

theorem frame_portal (c : Consts) (inp : FrameInput) (s : LMState) :
    portalCount (frame c inp s).1.objects ≤ portalCount s.objects := by
  unfold frame
  split_ifs with h
  · dsimp only
    obtain ⟨extra, heq, hz⟩ := spawnStep_extra c inp.speed inp.laneCount inp.level
      inp.collectedLetters inp.rand (s.distanceTraveled + inp.speed * min inp.delta (1 / 20))
      s.nextLetterDistance
      ((runObjects c (inp.speed * min inp.delta (1 / 20)) (min inp.delta (1 / 20))
          (inp.playerRef.getD ⟨0, 0, 0⟩) s.objects s.nextId).kept ++
        (runObjects c (inp.speed * min inp.delta (1 / 20)) (min inp.delta (1 / 20))
          (inp.playerRef.getD ⟨0, 0, 0⟩) s.objects s.nextId).spawned)
      (runObjects c (inp.speed * min inp.delta (1 / 20)) (min inp.delta (1 / 20))
          (inp.playerRef.getD ⟨0, 0, 0⟩) s.objects s.nextId).nextId
    rw [heq, portalCount_append, hz]
    simpa using runObjects_portal c _ _ _ s.objects s.nextId
  · simp

/-! Claim theorems. -/

/-- Claim C1, counterexample: in a playing frame whose player object
reference is not attached (`playerRef = none`), an obstacle straddling the
origin still produces a damage event, so the Collision Resolver does not
skip collision testing for that frame. -/
theorem C1_counterexample :
    (frame c0 noRefInput noRefState).2 = [GameEvent.playerHit 0] ∧
    noRefInput.playerRef = none := by
  constructor
  · decide
  · rfl

/-- Claim C1, amended: in a frame where the player pose is unavailable, the
Collision Resolver does not skip collision testing; it runs the frame exactly
as if the player pose were the default origin `(0,0,0)` (the source
substitutes the default `Vector3` when the reference is missing), so events
may still be emitted for entities overlapping the origin. -/
theorem C1_amended (c : Consts) (inp : FrameInput) (s : LMState) :
    frame c { inp with playerRef := none } s =
      frame c { inp with playerRef := some ⟨0, 0, 0⟩ } s := rfl

/-- Claim C3, counterexample: on a transition into the playing status the
player reset leaves the lane unchanged — a player in lane 2 stays in lane 2,
it is not reset to lane 0. -/
theorem C3_counterexample :
    (resetOnPlaying GameStatus.playing playerA).lane ≠ 0 := by decide

/-- Claim C3, amended: on every transition into the playing state from
game-over or victory the entity store is cleared and the distance zeroed
(on a fresh run the store was already cleared on entering the menu), and the
player jump state is reset to grounded — height 0, zero vertical velocity,
zero jumps used — while the lane keeps its previous value instead of being
reset to 0. -/
theorem C3_amended (c : Consts) (s : LMState) (einp : EffectInput) (p : PlayerState)
    (hst : einp.status = GameStatus.playing)
    (hprev : einp.prevStatus = GameStatus.gameOver ∨ einp.prevStatus = GameStatus.victory) :
    (effectStep c einp s).1.objects = [] ∧
    (effectStep c einp s).1.distanceTraveled = 0 ∧
    resetOnPlaying einp.status p =
      { lane := p.lane, isJumping := false, velocityY := 0, jumpsPerformed := 0, y := 0 } := by
  unfold effectStep resetOnPlaying
  rcases hprev with h | h <;> rw [hst, h] <;> simp

/-- Claim C3, witness. -/
theorem C3_witness :
    (effectStep c0 ⟨GameStatus.playing, GameStatus.gameOver, 1, 1⟩ pendingState).1.objects = [] ∧
    (effectStep c0 ⟨GameStatus.playing, GameStatus.gameOver, 1, 1⟩ pendingState).1.distanceTraveled = 0 ∧
    resetOnPlaying GameStatus.playing playerA =
      { lane := playerA.lane, isJumping := false, velocityY := 0, jumpsPerformed := 0, y := 0 } :=
  C3_amended c0 pendingState ⟨GameStatus.playing, GameStatus.gameOver, 1, 1⟩ playerA rfl (Or.inl rfl)

/-- Claim C9, confirmed: with `laneCount = 5` (so `maxLane = 2`), starting
from lane 0, the logical lane stays within `[-2, 2]` after every finite
sequence of move-lane-left / move-lane-right inputs. -/
theorem C9_lane_clamped (ms : List LaneMove) :
    -2 ≤ runLaneMoves GameStatus.playing 5 0 ms ∧
      runLaneMoves GameStatus.playing 5 0 ms ≤ 2 := by
  have key : ∀ (ms : List LaneMove) (l : ℤ), -2 ≤ l → l ≤ 2 →
      -2 ≤ runLaneMoves GameStatus.playing 5 l ms ∧
        runLaneMoves GameStatus.playing 5 l ms ≤ 2 := by
    intro ms
    induction ms with
    | nil => intro l h1 h2; exact ⟨h1, h2⟩
    | cons m rest ih =>
        intro l h1 h2
        have hstep : runLaneMoves GameStatus.playing 5 l (m :: rest) =
            runLaneMoves GameStatus.playing 5 (applyLaneMove GameStatus.playing 5 l m) rest := rfl
        rw [hstep]
        apply ih
        · cases m <;> simp [applyLaneMove, maxLane] <;> omega
        · cases m <;> simp [applyLaneMove, maxLane] <;> omega
  exact key ms 0 (by norm_num) (by norm_num)

/-- Claim C10, counterexample: the status/level effect also calls
`setDistance` when it runs with the status already at game-over (here the
effect runs because the level dependency changed from 2 to 1), so the
distance callback is not invoked exclusively on a transition into game-over
or victory. -/
theorem C10_counterexample :
    (effectStep c0 ⟨GameStatus.gameOver, GameStatus.gameOver, 1, 2⟩ overState).2 =
      [GameEvent.setDistance 12] ∧
    (⟨GameStatus.gameOver, GameStatus.gameOver, 1, 2⟩ : EffectInput).prevStatus =
      (⟨GameStatus.gameOver, GameStatus.gameOver, 1, 2⟩ : EffectInput).status := by
  constructor
  · decide
  · rfl

/-- Claim C10, amended: the distance callback is never emitted by a playing
frame; the status/level effect emits exactly one `setDistance` with the floor
of the accumulated distance whenever it runs with status game-over or
victory — in particular on every transition into those states, but also on a
later run of the effect (for example a level change) while the status stays
terminal — and emits none for any other status. -/
theorem C10_amended (c : Consts) (inp : FrameInput) (s : LMState)
    (einp : EffectInput) (s' : LMState) :
    (∀ v : ℤ, GameEvent.setDistance v ∉ (frame c inp s).2) ∧
    (einp.status = GameStatus.gameOver ∨ einp.status = GameStatus.victory →
      (effectStep c einp s').2 = [GameEvent.setDistance ⌊s'.distanceTraveled⌋]) ∧
    (¬ einp.status = GameStatus.gameOver → ¬ einp.status = GameStatus.victory →
      (effectStep c einp s').2 = []) := by
  refine ⟨?_, ?_, ?_⟩
  · intro v hv
    obtain ⟨o, _, hs⟩ := frame_events_src c inp s _ hv
    simp [eventSrc] at hs
  · intro h
    unfold effectStep
    rcases h with h | h <;> rw [h] <;> simp
  · intro h1 h2
    unfold effectStep
    split_ifs with a b c' <;> simp_all

/-- Claim C10, witness. -/
theorem C10_witness :
    (∀ v : ℤ, GameEvent.setDistance v ∉ (frame c0 gapInput gapState).2) ∧
    (effectStep c0 ⟨GameStatus.victory, GameStatus.playing, 1, 1⟩ overState).2 =
      [GameEvent.setDistance ⌊overState.distanceTraveled⌋] := by
  have h := C10_amended c0 gapInput gapState
    ⟨GameStatus.victory, GameStatus.playing, 1, 1⟩ overState
  exact ⟨h.1, h.2.1 (Or.inr rfl)⟩

/-- Claim C5, counterexample: a playing frame with the furthest static entity
at exactly z = -40 and `SPAWN_DISTANCE = 60` in which the spawn policy
produces no new entity, because no letter is due and the gate draw (0) is not
above 0.1 — so spawning is not guaranteed for every outcome of the random
source. -/
theorem C5_counterexample :
    frame c0 gapInput gapState = (gapState, []) ∧
    furthestZ gapState.objects = -40 ∧
    c0.SPAWN_DISTANCE = 60 ∧
    gapInput.status = GameStatus.playing := by
  refine ⟨?_, by decide, rfl, rfl⟩
  decide

/-- Claim C5, amended: in a playing frame with the furthest static entity at
z = -40 and `SPAWN_DISTANCE = 60`, the spawn policy produces at least one new
entity provided the letter-due condition holds or the gate draw exceeds 0.1;
in the remaining case (letter not due, gate draw at most 0.1 — about 10% of
outcomes) it deliberately spawns nothing. -/
theorem C5_amended (c : Consts) (speed : ℚ) (laneCount level : ℕ) (cl : List ℕ)
    (rand : Draws) (dt nld : ℚ) (kept : List GameObject) (nid : ℕ)
    (hfz : furthestZ kept = -40) (hsd : c.SPAWN_DISTANCE = 60)
    (hbranch : dt ≥ nld ∨ rand.gate > 1 / 10) :
    kept.length < (spawnStep c speed laneCount level cl rand dt nld kept nid).1.length := by
  unfold spawnStep
  dsimp only
  rw [hfz, hsd]
  rw [if_pos (by norm_num)]
  by_cases hdue : dt ≥ nld
  · rw [if_pos hdue]
    split_ifs <;> simp [List.length_append]
  · rcases hbranch with hb | hb
    · exact absurd hb hdue
    · rw [if_neg hdue, if_pos hb]
      split_ifs <;> simp [List.length_append]

/-- Claim C5, witness. -/
theorem C5_witness :
    gapState.objects.length <
      (spawnStep c0 0 5 1 [] draws0 200 150 gapState.objects 1).1.length :=
  C5_amended c0 0 5 1 [] draws0 200 150 gapState.objects 1 (by decide) rfl
    (Or.inl (by norm_num))

/-- Claim C2, counterexample: a frame in which an alien fires and the spawned
missile lands inside the player collision zone (it passes the z-zone, lane
and vertical overlap tests and is an active damage source), yet the frame
emits no event at all — the new missile is folded into the committed entity
set but is not collision-tested in its spawn frame. -/
theorem C2_counterexample :
    (frame c0 firingInput firingState).2 = [] ∧
    missile1 ∈ (frame c0 firingInput firingState).1.objects ∧
    inZZone ⟨0, 0, 0⟩ missile1.position.z missile1.position.z = true ∧
    |missile1.position.x - (0 : ℚ)| < 4 / 5 ∧
    isHitTest ⟨0, 0, 0⟩ missile1 = true ∧
    isDamageSource missile1.type = true ∧
    missile1.active = true := by decide

/-- Claim C2, amended: a missile spawned by an alien during a playing frame is
folded into the same frame's committed entity set, but it is not
collision-tested in that frame: every damage, collect or enter-shop event a
frame emits originates from an entity that was already in the store at the
start of the frame. -/
theorem C2_amended (c : Consts) (inp : FrameInput) (s : LMState) :
    (∀ e ∈ (frame c inp s).2, ∃ o ∈ s.objects, eventSrc e = some o.id) ∧
    (inp.status = GameStatus.playing →
      ∀ o ∈ (frameRun c inp s).spawned, o ∈ (frame c inp s).1.objects) := by
  constructor
  · intro e he
    exact frame_events_src c inp s e he
  · intro hst o ho
    unfold frameRun at ho
    unfold frame
    rw [if_pos hst]
    dsimp only
    obtain ⟨extra, heq, -⟩ := spawnStep_extra c inp.speed inp.laneCount inp.level
      inp.collectedLetters inp.rand (s.distanceTraveled + inp.speed * min inp.delta (1 / 20))
      s.nextLetterDistance
      ((runObjects c (inp.speed * min inp.delta (1 / 20)) (min inp.delta (1 / 20))
          (inp.playerRef.getD ⟨0, 0, 0⟩) s.objects s.nextId).kept ++
        (runObjects c (inp.speed * min inp.delta (1 / 20)) (min inp.delta (1 / 20))
          (inp.playerRef.getD ⟨0, 0, 0⟩) s.objects s.nextId).spawned)
      (runObjects c (inp.speed * min inp.delta (1 / 20)) (min inp.delta (1 / 20))
          (inp.playerRef.getD ⟨0, 0, 0⟩) s.objects s.nextId).nextId
    rw [heq]
    exact List.mem_append_left _ (List.mem_append_right _ ho)

/-- Claim C2, witness. -/
theorem C2_witness :
    (∃ o ∈ noRefState.objects, eventSrc (GameEvent.playerHit 0) = some o.id) ∧
    missile1 ∈ (frame c0 firingInput firingState).1.objects := by
  refine ⟨(C2_amended c0 noRefInput noRefState).1 (GameEvent.playerHit 0) (by decide), ?_⟩
  exact (C2_amended c0 firingInput firingState).2 rfl missile1 (by decide)

/-- Claim C4, counterexample: the alien `highAlien` hovers at height 3/2, yet
the missile it spawns sits at the fixed height 1 — the missile position does
not equal the alien height. -/
theorem C4_counterexample :
    (stepObject c0 (1 / 5) (1 / 20) ⟨0, 0, 0⟩ highAlien 7).spawned.map
        (fun o => o.position.y) = [1] ∧
    highAlien.position.y = 3 / 2 ∧
    ¬ ((1 : ℚ) = 3 / 2) := by decide

/-- Claim C4, amended: when an active not-yet-fired alien crosses the fire
threshold, the spawned missile sits at the alien lane x, at the fixed height
1.0 (not the alien height), two units behind the alien z; the alien is marked
`hasFired = true`, the flag is preserved by later frame steps, and an entity
with `hasFired = true` never spawns another missile. -/
theorem C4_amended (c : Consts) (dist safeDelta : ℚ) (pp : Vec3)
    (obj : GameObject) (nid : ℕ)
    (hty : obj.type = ObjectType.alien) (hact : obj.active = true)
    (hnf : obj.hasFired = false)
    (hz : obj.position.z + moveAmountFor dist safeDelta obj.type > -90) :
    (stepObject c dist safeDelta pp obj nid).spawned =
      [{ id := nid, type := ObjectType.missile,
         position := ⟨obj.position.x, 1,
           obj.position.z + moveAmountFor dist safeDelta obj.type + 2⟩,
         active := true }] ∧
    (∀ o ∈ (stepObject c dist safeDelta pp obj nid).kept, o.hasFired = true) ∧
    (∀ (obj₂ : GameObject) (nid₂ : ℕ), obj₂.hasFired = true →
      (stepObject c dist safeDelta pp obj₂ nid₂).spawned = [] ∧
      ∀ o ∈ (stepObject c dist safeDelta pp obj₂ nid₂).kept, o.hasFired = true) := by
  have hfire : firesNow (movedObj dist safeDelta obj) = true := by
    have h1 : (movedObj dist safeDelta obj).type = ObjectType.alien := hty
    have h2 : (movedObj dist safeDelta obj).active = true := hact
    have h3 : (movedObj dist safeDelta obj).hasFired = false := hnf
    have h4 : (movedObj dist safeDelta obj).position.z > -90 := hz
    unfold firesNow
    rw [h1, h2, h3]
    simp [h4]
  have haf : afterFire (movedObj dist safeDelta obj) =
      { movedObj dist safeDelta obj with hasFired := true } := by
    unfold afterFire
    rw [hfire]
    rfl
  refine ⟨?_, ?_, ?_⟩
  · show (if firesNow (movedObj dist safeDelta obj) then
        [missileFrom (movedObj dist safeDelta obj) nid] else []) = _
    rw [hfire]
    rfl
  · intro o ho
    have hkept : (stepObject c dist safeDelta pp obj nid).kept =
        if (resolveCollision pp obj.position.z (afterFire (movedObj dist safeDelta obj))).2.1 &&
            !(decide ((movedObj dist safeDelta obj).position.z > c.REMOVE_DISTANCE)) then
          [(resolveCollision pp obj.position.z (afterFire (movedObj dist safeDelta obj))).1]
        else [] := rfl
    rw [hkept] at ho
    rcases resolveCollision_fst pp obj.position.z (afterFire (movedObj dist safeDelta obj))
      with hc | hc <;> split at ho <;> simp_all [movedObj]
  · intro obj₂ nid₂ h2f
    have hfire₂ : firesNow (movedObj dist safeDelta obj₂) = false := by
      have h3 : (movedObj dist safeDelta obj₂).hasFired = true := h2f
      unfold firesNow
      rw [h3]
      simp
    have haf₂ : afterFire (movedObj dist safeDelta obj₂) = movedObj dist safeDelta obj₂ := by
      unfold afterFire
      rw [hfire₂]
      rfl
    constructor
    · show (if firesNow (movedObj dist safeDelta obj₂) then
          [missileFrom (movedObj dist safeDelta obj₂) nid₂] else []) = []
      rw [hfire₂]
      rfl
    · intro o ho
      have hkept : (stepObject c dist safeDelta pp obj₂ nid₂).kept =
          if (resolveCollision pp obj₂.position.z (afterFire (movedObj dist safeDelta obj₂))).2.1 &&
              !(decide ((movedObj dist safeDelta obj₂).position.z > c.REMOVE_DISTANCE)) then
            [(resolveCollision pp obj₂.position.z (afterFire (movedObj dist safeDelta obj₂))).1]
          else [] := rfl
      rw [hkept] at ho
      rcases resolveCollision_fst pp obj₂.position.z (afterFire (movedObj dist safeDelta obj₂))
        with hc | hc <;> split at ho <;> simp_all [movedObj]

/-- Claim C4, witness. -/
theorem C4_witness :
    (stepObject c0 (1 / 5) (1 / 20) ⟨0, 0, 0⟩ highAlien 7).spawned =
      [{ id := 7, type := ObjectType.missile,
         position := ⟨highAlien.position.x, 1,
           highAlien.position.z + moveAmountFor (1 / 5) (1 / 20) highAlien.type + 2⟩,
         active := true }] ∧
    ∀ o ∈ (stepObject c0 (1 / 5) (1 / 20) ⟨0, 0, 0⟩ highAlien 7).kept, o.hasFired = true := by
  have h := C4_amended c0 (1 / 5) (1 / 20) ⟨0, 0, 0⟩ highAlien 7 rfl rfl rfl (by decide)
  exact ⟨h.1, h.2.1⟩

/-- Claim C6, confirmed: an overlap of the player with an active damage
source (obstacle, alien or missile) emits exactly one `player-hit` event and
deactivates the entity, independently of player protection; the `checkHit`
listener then suppresses the damage callback when the player is invincible
or immortal (state unchanged, no `takeDamage`), and calls it exactly once,
starting the invincibility window, when the player is unprotected. -/
theorem C6_protected_hit (c : Consts) (dist safeDelta : ℚ) (pp : Vec3)
    (obj : GameObject) (nid : ℕ)
    (hds : isDamageSource obj.type = true) (hact : obj.active = true)
    (hz : inZZone pp obj.position.z
        (obj.position.z + moveAmountFor dist safeDelta obj.type) = true)
    (hx : |obj.position.x - pp.x| < 4 / 5)
    (hy : isHitTest pp obj = true) :
    (stepObject c dist safeDelta pp obj nid).events = [GameEvent.playerHit obj.id] ∧
    (∀ o ∈ (stepObject c dist safeDelta pp obj nid).kept, o.active = false) ∧
    (∀ (now : ℤ) (imm : Bool) (h : HitState),
      (h.isInvincible = true ∨ imm = true → checkHit now imm h = (h, false)) ∧
      (h.isInvincible = false → imm = false →
        checkHit now imm h = ({ isInvincible := true, lastDamageTime := now }, true))) := by
  have hne : ¬ obj.type = ObjectType.shopPortal := by
    intro h
    rw [h] at hds
    simp [isDamageSource] at hds
  have h1 : (afterFire (movedObj dist safeDelta obj)).active = true := by
    rw [afterFire_active]; exact hact
  have h2 : ¬ (afterFire (movedObj dist safeDelta obj)).type = ObjectType.shopPortal := by
    rw [afterFire_type]; exact hne
  have h3 : inZZone pp obj.position.z
      (afterFire (movedObj dist safeDelta obj)).position.z = true := by
    rw [afterFire_position]; exact hz
  have h4 : |(afterFire (movedObj dist safeDelta obj)).position.x - pp.x| < 4 / 5 := by
    rw [afterFire_position]; exact hx
  have h5 : isDamageSource (afterFire (movedObj dist safeDelta obj)).type = true := by
    rw [afterFire_type]; exact hds
  have h6 : isHitTest pp (afterFire (movedObj dist safeDelta obj)) = true := by
    have heq : isHitTest pp (afterFire (movedObj dist safeDelta obj)) = isHitTest pp obj := by
      unfold isHitTest
      rw [afterFire_type, afterFire_position]
      rfl
    rw [heq]; exact hy
  have hcol : resolveCollision pp obj.position.z (afterFire (movedObj dist safeDelta obj)) =
      ({ afterFire (movedObj dist safeDelta obj) with active := false }, true,
        [GameEvent.playerHit (afterFire (movedObj dist safeDelta obj)).id]) := by
    unfold resolveCollision
    rw [if_pos h1, if_neg h2, if_pos h3, if_pos h4, if_pos h5, if_pos h6]
  refine ⟨?_, ?_, ?_⟩
  · show (resolveCollision pp obj.position.z (afterFire (movedObj dist safeDelta obj))).2.2 = _
    rw [hcol, afterFire_id]
    rfl
  · intro o ho
    have hkept : (stepObject c dist safeDelta pp obj nid).kept =
        if (resolveCollision pp obj.position.z (afterFire (movedObj dist safeDelta obj))).2.1 &&
            !(decide ((movedObj dist safeDelta obj).position.z > c.REMOVE_DISTANCE)) then
          [(resolveCollision pp obj.position.z (afterFire (movedObj dist safeDelta obj))).1]
        else [] := rfl
    rw [hkept, hcol] at ho
    split at ho <;> simp_all
  · intro now imm h
    constructor
    · intro hpr
      unfold checkHit
      rw [if_pos hpr]
    · intro hi him
      unfold checkHit
      rw [if_neg (by simp [hi, him])]

/-- Claim C6, witness. -/
theorem C6_witness :
    (stepObject c0 (1 / 2) (1 / 20) ⟨0, 0, 0⟩ noRefObstacle 1).events =
      [GameEvent.playerHit noRefObstacle.id] ∧
    checkHit 5 true ⟨false, 0⟩ = (⟨false, 0⟩, false) ∧
    checkHit 5 false ⟨false, 0⟩ = (⟨true, 5⟩, true) := by
  have h := C6_protected_hit c0 (1 / 2) (1 / 20) ⟨0, 0, 0⟩ noRefObstacle 1
    (by decide) (by decide) (by decide) (by decide) (by decide)
  exact ⟨h.1, (h.2.2 5 true ⟨false, 0⟩).1 (Or.inr rfl), (h.2.2 5 false ⟨false, 0⟩).2 rfl rfl⟩

/-- Claim C7, counterexample: a second level-up (level 1 to 2, still playing)
while a live portal sits at z = -50 keeps the old portal (the prune only
removes entities at z at most -80) and injects a second one, so two shop
portals are live at the same time. -/
theorem C7_counterexample :
    portalCount
      (effectStep c0 ⟨GameStatus.playing, GameStatus.playing, 2, 1⟩ pendingState).1.objects =
      2 := by decide

/-- Claim C7, amended: the frame loop never creates a portal (the live-portal
count never grows across a frame); a portal is injected exactly once per
same-run level-up transition with level > 1, appended to the pruned entity
list; and a moved portal within trigger distance of the player forward
coordinate emits exactly one enter-shop event and is dropped from the kept
set that frame, with no condition on the player lane.  Two live portals can
coexist when a second level-up occurs while an earlier portal is at
z > -80. -/
theorem C7_amended (c : Consts) (inp : FrameInput) (s : LMState)
    (einp : EffectInput) (es : LMState)
    (dist safeDelta : ℚ) (pp : Vec3) (obj : GameObject) (nid : ℕ)
    (hlev : 1 < einp.level) (hne : ¬ einp.level = einp.prevLevel)
    (hst : einp.status = GameStatus.playing)
    (hp1 : ¬ einp.prevStatus = GameStatus.gameOver)
    (hp2 : ¬ einp.prevStatus = GameStatus.victory)
    (hty : obj.type = ObjectType.shopPortal) (hact : obj.active = true)
    (hnear : |obj.position.z + moveAmountFor dist safeDelta obj.type - pp.z| < 2) :
    portalCount (frame c inp s).1.objects ≤ portalCount s.objects ∧
    (effectStep c einp es).1.objects =
      es.objects.filter (fun o => decide (o.position.z > -80)) ++ [newPortal es.nextId] ∧
    (stepObject c dist safeDelta pp obj nid).events = [GameEvent.openShop obj.id] ∧
    (stepObject c dist safeDelta pp obj nid).kept = [] := by
  have hfire : firesNow (movedObj dist safeDelta obj) = false := by
    have h1 : (movedObj dist safeDelta obj).type = ObjectType.shopPortal := hty
    unfold firesNow
    rw [h1]
    simp
  have haf : afterFire (movedObj dist safeDelta obj) = movedObj dist safeDelta obj := by
    unfold afterFire
    rw [hfire]
    rfl
  have hcol : resolveCollision pp obj.position.z (movedObj dist safeDelta obj) =
      ({ movedObj dist safeDelta obj with active := false }, false,
        [GameEvent.openShop obj.id]) := by
    have h1 : (movedObj dist safeDelta obj).active = true := hact
    have h2 : (movedObj dist safeDelta obj).type = ObjectType.shopPortal := hty
    have h3 : |(movedObj dist safeDelta obj).position.z - pp.z| < 2 := hnear
    unfold resolveCollision
    rw [if_pos h1, if_pos h2, if_pos h3]
    rfl
  refine ⟨frame_portal c inp s, ?_, ?_, ?_⟩
  · unfold effectStep
    rw [if_neg (by simp [hst, hp1, hp2]), if_pos (⟨⟨hne, hst⟩, hlev⟩ :
      (¬ einp.level = einp.prevLevel ∧ einp.status = GameStatus.playing) ∧ 1 < einp.level)]
  · show (resolveCollision pp obj.position.z (afterFire (movedObj dist safeDelta obj))).2.2 = _
    rw [haf, hcol]
  · show (if (resolveCollision pp obj.position.z
            (afterFire (movedObj dist safeDelta obj))).2.1 &&
          !(decide ((movedObj dist safeDelta obj).position.z > c.REMOVE_DISTANCE)) then
        [(resolveCollision pp obj.position.z (afterFire (movedObj dist safeDelta obj))).1]
      else []) = []
    rw [haf, hcol]
    rfl

/-- Claim C7, witness. -/
theorem C7_witness :
    portalCount (frame c0 gapInput gapState).1.objects ≤ portalCount gapState.objects ∧
    (effectStep c0 ⟨GameStatus.playing, GameStatus.shop, 3, 2⟩ pendingState).1.objects =
      pendingState.objects.filter (fun o => decide (o.position.z > -80)) ++
        [newPortal pendingState.nextId] ∧
    (stepObject c0 (1 / 5) (1 / 20) ⟨3, 0, 0⟩ nearPortal 9).events =
      [GameEvent.openShop nearPortal.id] ∧
    (stepObject c0 (1 / 5) (1 / 20) ⟨3, 0, 0⟩ nearPortal 9).kept = [] :=
  C7_amended c0 gapInput gapState ⟨GameStatus.playing, GameStatus.shop, 3, 2⟩ pendingState
    (1 / 5) (1 / 20) ⟨3, 0, 0⟩ nearPortal 9 (by norm_num) (by decide) rfl (by decide)
    (by decide) rfl rfl (by decide)

/-- Claim C8, confirmed: when a spawn is possible, a letter is due and all six
target letters are already collected, the spawn policy appends exactly one
gem (worth 50) and no letter, and leaves `nextLetterDistance` unchanged —
only the letter-spawning branch advances it. -/
theorem C8_letters_exhausted (c : Consts) (speed : ℚ) (laneCount level : ℕ)
    (cl : List ℕ) (rand : Draws) (dt nld : ℚ) (kept : List GameObject) (nid : ℕ)
    (hall : ∀ i, i < 6 → cl.contains i = true)
    (hdue : dt ≥ nld)
    (hopen : furthestZ kept > -c.SPAWN_DISTANCE) :
    (spawnStep c speed laneCount level cl rand dt nld kept nid).2.1 = nld ∧
    ∃ g : GameObject,
      (spawnStep c speed laneCount level cl rand dt nld kept nid).1 = kept ++ [g] ∧
      g.type = ObjectType.gem ∧ g.points = some 50 := by
  have hav : (List.range 6).filter (fun i => !cl.contains i) = [] := by
    rw [List.filter_eq_nil_iff]
    intro a ha
    have hc : cl.contains a = true := hall a (List.mem_range.mp ha)
    simpa using hc
  unfold spawnStep
  dsimp only
  rw [if_pos hopen, if_pos hdue, hav]
  rw [if_neg (by simp)]
  exact ⟨rfl, _, rfl, rfl, rfl⟩

/-- Claim C8, witness. -/
theorem C8_witness :
    (spawnStep c0 10 5 1 [0, 1, 2, 3, 4, 5] draws0 200 150 gapState.objects 9).2.1 = 150 ∧
    ∃ g : GameObject,
      (spawnStep c0 10 5 1 [0, 1, 2, 3, 4, 5] draws0 200 150 gapState.objects 9).1 =
        gapState.objects ++ [g] ∧
      g.type = ObjectType.gem ∧ g.points = some 50 :=
  C8_letters_exhausted c0 10 5 1 [0, 1, 2, 3, 4, 5] draws0 200 150 gapState.objects 9
    (by decide) (by norm_num) (by decide)

end PengoRun
